import Mathlib

/-!
Verification of the VIIPER example clients
(src/examples/c/virtual_keyboard/main.c and src/examples/c/virtual_x360_pad/main.c)
against their natural-language specification.

The two example programs are shallowly embedded: pointers that may be NULL
become `Option`, byte buffers become `List Nat` (each entry one byte),
C `uint8_t`/`uint32_t` values become `Nat` with explicit wraparound where a
conversion happens in the code, and a function that conditionally performs a
send is modelled as returning `Option` of the sent frame.  Operations of the
core VIIPER library (whose sources are not part of this repository, only its
callers are) are modelled from the specification where a claim needs them;
each such definition says so in its doc comment.
-/

namespace VIIPER

/-! ## Keyboard constants

`viiper_keyboard.h` is not part of this repository; the values below are
needed only where the spec pins them down. -/

/-- Modelled from the spec: `VIIPER_KEYBOARD_MOD_LEFT_SHIFT` from the missing
header `viiper_keyboard.h`; the spec fixes the left-shift modifier bit to
`0x02` ("given modifiers bit `0x02`"). -/
def VIIPER_KEYBOARD_MOD_LEFT_SHIFT : Nat := 0x02

/-- Modelled from the spec: `VIIPER_KEYBOARD_KEY_H` from the missing header
`viiper_keyboard.h`.  The spec leaves the value abstract ("`<code for H>`");
we use the standard USB HID usage id for the H key (0x0B).  No claim depends
on the concrete value. -/
def VIIPER_KEYBOARD_KEY_H : Nat := 0x0B

/-! ## send_keys (virtual_keyboard/main.c, lines 62-75)

```c
static void send_keys(viiper_device_t* dev, uint8_t modifiers, const uint8_t* keys, uint8_t nkeys)
{
    if (!keys && nkeys) return;
    size_t pkt_len = (size_t)2 + (size_t)nkeys;
    uint8_t* buf = (uint8_t*)malloc(pkt_len);
    if (!buf) return;
    buf[0] = modifiers;
    buf[1] = nkeys;
    if (nkeys && keys) memcpy(buf + 2, keys, nkeys);
    viiper_device_send(dev, buf, pkt_len);
    free(buf);
}
```

The result is the frame handed to `viiper_device_send`, or `none` when the
function returns without sending (`keys == NULL && nkeys != 0`).  `malloc`
is modelled as succeeding.  `memcpy(buf + 2, keys, nkeys)` copies the first
`nkeys` bytes of the key array, hence `take nkeys`. -/
def send_keys (modifiers : Nat) (keys : Option (List Nat)) (nkeys : Nat) :
    Option (List Nat) :=
  if keys = none ∧ nkeys ≠ 0 then none
  else some (modifiers :: nkeys :: (keys.getD []).take nkeys)

/-- `press_and_release` (virtual_keyboard/main.c, lines 77-84): the two frames
produced by the two `send_keys` calls, in order (the `sleep_ms` calls do not
affect the frames). -/
def press_and_release (modifiers key : Nat) : List (Option (List Nat)) :=
  [send_keys modifiers (some [key]) 1, send_keys 0 none 0]

/-- Claim C1: for every call to `send_keys` with keys non-null, the frame
passed to `viiper_device_send` has length exactly `2 + nkeys`, byte 0 the
modifiers, byte 1 the key count, and bytes `2 .. 2+nkeys-1` the keys in
order; with keys null and `nkeys = 0` the frame is `[modifiers, 0]` of
length 2; and in particular left-shift plus `[KEY_H]` yields the wire frame
`[0x02, 0x01, <code for H>]`. -/
theorem C1_send_keys_frame :
    (∀ (modifiers : Nat) (ks : List Nat) (nkeys : Nat), nkeys ≤ ks.length →
      ∃ buf, send_keys modifiers (some ks) nkeys = some buf ∧
        buf.length = 2 + nkeys ∧
        buf.get? 0 = some modifiers ∧
        buf.get? 1 = some nkeys ∧
        (∀ i, i < nkeys → buf.get? (2 + i) = ks.get? i)) ∧
    (∀ modifiers : Nat, send_keys modifiers none 0 = some [modifiers, 0]) ∧
    send_keys VIIPER_KEYBOARD_MOD_LEFT_SHIFT (some [VIIPER_KEYBOARD_KEY_H]) 1 =
      some [0x02, 0x01, VIIPER_KEYBOARD_KEY_H] := by
  refine ⟨?_, ?_, ?_⟩
  · intro modifiers ks nkeys hn
    refine ⟨modifiers :: nkeys :: ks.take nkeys, ?_, ?_, rfl, rfl, ?_⟩
    · simp [send_keys]
    · simp [List.length_take, Nat.min_eq_left hn]
      omega
    · intro i hi
      have h2 : (modifiers :: nkeys :: ks.take nkeys).get? (2 + i) =
          (ks.take nkeys).get? i := by
        have : 2 + i = i + 2 := by omega
        rw [this]
        rfl
      rw [h2, List.get?_eq_getElem?, List.get?_eq_getElem?,
        List.getElem?_take_of_lt hi]
  · intro modifiers
    simp [send_keys]
  · rfl

/-- Closed witness for the hypotheses of `C1_send_keys_frame`. -/
theorem C1_send_keys_frame_witness :
    ∃ buf, send_keys 0x02 (some [VIIPER_KEYBOARD_KEY_H]) 1 = some buf ∧
      buf.length = 2 + 1 ∧
      buf.get? 0 = some 0x02 ∧ buf.get? 1 = some 1 ∧
      (∀ i, i < 1 → buf.get? (2 + i) = [VIIPER_KEYBOARD_KEY_H].get? i) :=
  C1_send_keys_frame.1 0x02 [VIIPER_KEYBOARD_KEY_H] 1 (by decide)

/-- Claim C8: `send_keys` with a null key pointer and a nonzero count returns
without sending any frame (so the `memcpy` branch never dereferences NULL),
while the release-all call (null pointer, count 0) still sends the 2-byte
frame `[modifiers, 0]`; `press_and_release` indeed ends with that release
frame. -/
theorem C8_send_keys_null_guard :
    (∀ (modifiers nkeys : Nat), nkeys ≠ 0 → send_keys modifiers none nkeys = none) ∧
    (∀ modifiers : Nat, send_keys modifiers none 0 = some [modifiers, 0]) ∧
    (∀ modifiers key : Nat,
      press_and_release modifiers key = [some [modifiers, 1, key], some [0, 0]]) := by
  refine ⟨?_, ?_, ?_⟩
  · intro modifiers nkeys hn
    simp [send_keys, hn]
  · intro modifiers
    simp [send_keys]
  · intro modifiers key
    simp [press_and_release, send_keys]

/-- Closed witness for the hypotheses of `C8_send_keys_null_guard`. -/
theorem C8_send_keys_null_guard_witness :
    send_keys 0 none 3 = none :=
  C8_send_keys_null_guard.1 0 3 (by decide)

/-! ## choose_or_create_bus (both examples, identical logic)

```c
static uint32_t choose_or_create_bus(viiper_client_t* client)
{
    viiper_bus_list_response_t list; memset(&list, 0, sizeof list);
    if (viiper_bus_list(client, &list) != VIIPER_OK) { ... return 0; }
    uint32_t busId = 0;
    if (list.buses_count > 0) {
        busId = list.Buses[0];
        for (size_t i = 1; i < list.buses_count; ++i)
            if (list.Buses[i] < busId) busId = list.Buses[i];
        ...
        return busId;
    }
    ...
    viiper_bus_create_response_t cr; memset(&cr, 0, sizeof cr);
    if (viiper_bus_create(client, NULL, &cr) == VIIPER_OK) { ... return cr.BusID; }
    ...
    return 0;
}
```

The two RPC outcomes are inputs: `listResult = none` when `viiper_bus_list`
fails, otherwise the listed bus ids (`buses_count = length`); `createResult`
is `viiper_bus_create`'s assigned id, or `none` on failure.  `calledCreate`
records whether the `viiper_bus_create` call was reached.  `busId` is the C
return value. -/
structure ChooseOutcome where
  busId : Nat
  calledCreate : Bool
deriving DecidableEq

/-- The loop body `if (list.Buses[i] < busId) busId = list.Buses[i];`. -/
def bus_min_step (acc b : Nat) : Nat := if b < acc then b else acc

def choose_or_create_bus (listResult : Option (List Nat))
    (createResult : Option Nat) : ChooseOutcome :=
  match listResult with
  | none => ⟨0, false⟩
  | some buses =>
    match buses with
    | b0 :: rest => ⟨rest.foldl bus_min_step b0, false⟩
    | [] =>
      match createResult with
      | some busID => ⟨busID, true⟩
      | none => ⟨0, true⟩

/-- The `main` code that consumes `choose_or_create_bus` (virtual_keyboard
lines 118-119, virtual_x360_pad lines 103-108): a zero bus id frees the
client and exits with status 1 (modelled as `none`); otherwise `main`
proceeds with the id. -/
def main_bus_phase (listResult : Option (List Nat)) (createResult : Option Nat) :
    Option Nat :=
  let busId := (choose_or_create_bus listResult createResult).busId
  if busId = 0 then none else some busId

lemma bus_min_step_le_left (l : List Nat) : ∀ a : Nat, l.foldl bus_min_step a ≤ a := by
  induction l with
  | nil => intro a; simp [List.foldl]
  | cons c l ih =>
    intro a
    have h := ih (bus_min_step a c)
    have : bus_min_step a c ≤ a := by unfold bus_min_step; split <;> omega
    calc (c :: l).foldl bus_min_step a = l.foldl bus_min_step (bus_min_step a c) := rfl
      _ ≤ bus_min_step a c := h
      _ ≤ a := this

lemma bus_min_step_mem (l : List Nat) :
    ∀ a : Nat, l.foldl bus_min_step a = a ∨ l.foldl bus_min_step a ∈ l := by
  induction l with
  | nil => intro a; left; rfl
  | cons c l ih =>
    intro a
    have h := ih (bus_min_step a c)
    show l.foldl bus_min_step (bus_min_step a c) = a ∨
      l.foldl bus_min_step (bus_min_step a c) ∈ c :: l
    rcases h with h | h
    · rw [h]
      unfold bus_min_step
      split
      · right; exact List.mem_cons_self _ _
      · left; rfl
    · right; exact List.mem_cons_of_mem _ h

lemma bus_min_step_le_mem (l : List Nat) :
    ∀ a b : Nat, b ∈ l → l.foldl bus_min_step a ≤ b := by
  induction l with
  | nil => intro a b hb; cases hb
  | cons c l ih =>
    intro a b hb
    show l.foldl bus_min_step (bus_min_step a c) ≤ b
    rcases List.mem_cons.mp hb with heq | hb
    · subst heq
      have h1 := bus_min_step_le_left l (bus_min_step a b)
      have h2 : bus_min_step a b ≤ b := by unfold bus_min_step; split <;> omega
      omega
    · exact ih _ b hb

/-- Claim C2: given a successful `list_buses` result, `choose_or_create_bus`
returns the numeric minimum of the listed bus ids when the list is non-empty
(without calling create), and calls `viiper_bus_create` and returns its
assigned id exactly when the list is empty.  Determinism is immediate: the
result is a function of the `list_buses` result (and the create outcome). -/
theorem C2_choose_or_create_bus_min :
    (∀ (buses : List Nat) (createResult : Option Nat), buses ≠ [] →
      (choose_or_create_bus (some buses) createResult).calledCreate = false ∧
      (choose_or_create_bus (some buses) createResult).busId ∈ buses ∧
      ∀ b, b ∈ buses → (choose_or_create_bus (some buses) createResult).busId ≤ b) ∧
    (∀ createResult : Option Nat,
      (choose_or_create_bus (some []) createResult).calledCreate = true ∧
      ∀ busID : Nat, createResult = some busID →
        (choose_or_create_bus (some []) createResult).busId = busID) := by
  constructor
  · intro buses createResult hne
    match buses with
    | [] => exact absurd rfl hne
    | b0 :: rest =>
      refine ⟨rfl, ?_, ?_⟩
      · show rest.foldl bus_min_step b0 ∈ b0 :: rest
        rcases bus_min_step_mem rest b0 with h | h
        · rw [h]; exact List.mem_cons_self _ _
        · exact List.mem_cons_of_mem _ h
      · intro b hb
        show rest.foldl bus_min_step b0 ≤ b
        rcases List.mem_cons.mp hb with rfl | hb
        · exact bus_min_step_le_left rest b
        · exact bus_min_step_le_mem rest b0 b hb
  · intro createResult
    constructor
    · cases createResult <;> rfl
    · intro busID h
      subst h
      rfl

/-- Closed witness for the hypotheses of `C2_choose_or_create_bus_min`. -/
theorem C2_choose_or_create_bus_min_witness :
    (choose_or_create_bus (some [3, 1, 2]) none).calledCreate = false ∧
    (choose_or_create_bus (some [3, 1, 2]) none).busId ∈ [3, 1, 2] ∧
    ∀ b, b ∈ [3, 1, 2] → (choose_or_create_bus (some [3, 1, 2]) none).busId ≤ b :=
  C2_choose_or_create_bus_min.1 [3, 1, 2] none (by decide)

/-- Claim C9: `choose_or_create_bus` uses 0 as its only failure sentinel — it
returns 0 both when listing fails and when creation fails — and `main` treats
any 0 return as fatal (frees the client, exits 1, modelled by
`main_bus_phase _ _ = none`); hence a legitimately hub-assigned bus id 0,
whether the minimum of the listed buses or freshly created, is
indistinguishable from failure and makes the program exit. -/
theorem C9_zero_bus_id_sentinel :
    (∀ createResult, (choose_or_create_bus none createResult).busId = 0) ∧
    (choose_or_create_bus (some []) none).busId = 0 ∧
    (∀ listResult createResult,
      (choose_or_create_bus listResult createResult).busId = 0 →
      main_bus_phase listResult createResult = none) ∧
    (choose_or_create_bus (some [0]) none).busId = 0 ∧
    main_bus_phase (some [0]) none = none ∧
    (choose_or_create_bus (some []) (some 0)).busId = 0 ∧
    main_bus_phase (some []) (some 0) = none := by
  refine ⟨?_, rfl, ?_, rfl, rfl, rfl, rfl⟩
  · intro createResult; rfl
  · intro listResult createResult h
    simp [main_bus_phase, h]

/-- Closed witness for the hypotheses of `C9_zero_bus_id_sentinel`. -/
theorem C9_zero_bus_id_sentinel_witness :
    main_bus_phase none none = none :=
  C9_zero_bus_id_sentinel.2.2.1 none none (by decide)

/-! ## on_leds (virtual_keyboard/main.c, lines 45-60)

```c
static void on_leds(void* buffer, size_t bytes_read, void* user)
{
    const uint8_t* led_data = (const uint8_t*)buffer;
    (void)user;
    if (bytes_read == 0) return;
    for (size_t i = 0; i < bytes_read; ++i) {
        uint8_t b = led_data[i];
        printf("→ LEDs: Num=%u Caps=%u ...", (b & VIIPER_KEYBOARD_LED_NUM_LOCK) ? 1 : 0, ...);
    }
}
```

The callback's observable behaviour is the sequence of LED records it
decodes and prints, one per byte, in buffer order. -/

/-- Modelled from the spec: keyboard LED bit masks from the missing header
`viiper_keyboard.h` (standard USB HID LED usage bits).  Claim C4 is
independent of the concrete values. -/
def VIIPER_KEYBOARD_LED_NUM_LOCK : Nat := 0x01

/-- Modelled from the spec: see `VIIPER_KEYBOARD_LED_NUM_LOCK`. -/
def VIIPER_KEYBOARD_LED_CAPS_LOCK : Nat := 0x02

/-- Modelled from the spec: see `VIIPER_KEYBOARD_LED_NUM_LOCK`. -/
def VIIPER_KEYBOARD_LED_SCROLL_LOCK : Nat := 0x04

/-- Modelled from the spec: see `VIIPER_KEYBOARD_LED_NUM_LOCK`. -/
def VIIPER_KEYBOARD_LED_COMPOSE : Nat := 0x08

/-- Modelled from the spec: see `VIIPER_KEYBOARD_LED_NUM_LOCK`. -/
def VIIPER_KEYBOARD_LED_KANA : Nat := 0x10

/-- One decoded (printed) LED record. -/
structure LedState where
  num : Bool
  caps : Bool
  scroll : Bool
  compose : Bool
  kana : Bool
deriving DecidableEq

/-- Decoding of the single byte `b` inside the loop body of `on_leds`. -/
def decode_led (b : Nat) : LedState :=
  ⟨b &&& VIIPER_KEYBOARD_LED_NUM_LOCK ≠ 0,
   b &&& VIIPER_KEYBOARD_LED_CAPS_LOCK ≠ 0,
   b &&& VIIPER_KEYBOARD_LED_SCROLL_LOCK ≠ 0,
   b &&& VIIPER_KEYBOARD_LED_COMPOSE ≠ 0,
   b &&& VIIPER_KEYBOARD_LED_KANA ≠ 0⟩

/-- `on_leds`: the list of records decoded for a delivery of `bytes_read`
bytes out of `led_data`. -/
def on_leds (led_data : List Nat) (bytes_read : Nat) : List LedState :=
  if bytes_read = 0 then []
  else (led_data.take bytes_read).map decode_led

/-- Claim C4: a delivery of `N` bytes is handled as `N` logical 1-byte LED
records, decoded in buffer order with none dropped or reordered; the
coalesced delivery `[0x01, 0x00, 0x02]` with `bytes_read = 3` yields exactly
3 records (the decodings of the 3 bytes in order), and a delivery with
`bytes_read = 0` decodes nothing. -/
theorem C4_on_leds_coalesced :
    (∀ (led_data : List Nat) (bytes_read : Nat), bytes_read ≤ led_data.length →
      (on_leds led_data bytes_read).length = bytes_read ∧
      ∀ i, i < bytes_read →
        (on_leds led_data bytes_read).get? i = (led_data.get? i).map decode_led) ∧
    on_leds [0x01, 0x00, 0x02] 3 = [decode_led 0x01, decode_led 0x00, decode_led 0x02] ∧
    (∀ led_data : List Nat, on_leds led_data 0 = []) := by
  refine ⟨?_, rfl, fun _ => rfl⟩
  intro led_data bytes_read hn
  constructor
  · by_cases h0 : bytes_read = 0
    · simp [on_leds, h0]
    · simp [on_leds, h0, List.length_take, Nat.min_eq_left hn]
  · intro i hi
    have h0 : bytes_read ≠ 0 := by omega
    rw [on_leds, if_neg h0, List.get?_eq_getElem?, List.getElem?_map,
      List.getElem?_take_of_lt hi, List.get?_eq_getElem?]

/-- Closed witness for the hypotheses of `C4_on_leds_coalesced`. -/
theorem C4_on_leds_coalesced_witness :
    (on_leds [1, 0, 2] 3).length = 3 ∧
    ∀ i, i < 3 → (on_leds [1, 0, 2] 3).get? i = ([1, 0, 2].get? i).map decode_led :=
  C4_on_leds_coalesced.1 [1, 0, 2] 3 (by decide)

/-! ## on_rumble (virtual_x360_pad/main.c, lines 58-65)

```c
static void on_rumble(const void* output, size_t output_size, void* user)
{
    (void)user;
    if (output_size >= 2) {
        const viiper_xbox360_output_t* out = (const viiper_xbox360_output_t*)output;
        printf("← Rumble: Left=%u, Right=%u\n", out->left, out->right);
    }
}
```
-/

/-- Modelled from the spec: `viiper_xbox360_output_t` from the missing header
`viiper_xbox360.h`; spec §6: "pad rumble output is a fixed 2-field
little-endian structure: left intensity, right intensity".  Field `left` is
byte 0 of the frame and field `right` is byte 1. -/
structure Xbox360Output where
  left : Nat
  right : Nat
deriving DecidableEq

/-- Reading the two fields of `viiper_xbox360_output_t` from a raw frame
(byte 0 = left, byte 1 = right, per the spec's layout). -/
def read_xbox360_output (frame : List Nat) : Xbox360Output :=
  ⟨frame.getD 0 0, frame.getD 1 0⟩

/-- `on_rumble`: `some` of the record it reads and prints when
`output_size >= 2`, `none` (no field access) otherwise. -/
def on_rumble (output : List Nat) (output_size : Nat) : Option Xbox360Output :=
  if output_size ≥ 2 then some (read_xbox360_output output) else none

/-- Claim C5: an inbound pad output frame is interpreted as a fixed 2-field
structure — first field the left rumble intensity (byte 0), second field the
right rumble intensity (byte 1) — and the callback reads those fields only
when the delivered size is at least 2 bytes. -/
theorem C5_on_rumble_fields :
    (∀ (output : List Nat) (output_size : Nat), 2 ≤ output_size →
      on_rumble output output_size =
        some ⟨output.getD 0 0, output.getD 1 0⟩) ∧
    (∀ (output : List Nat) (output_size : Nat), output_size < 2 →
      on_rumble output output_size = none) := by
  constructor
  · intro output output_size h
    simp [on_rumble, read_xbox360_output, h]
  · intro output output_size h
    simp [on_rumble, Nat.not_le.mpr h]

/-- Closed witness for the hypotheses of `C5_on_rumble_fields`. -/
theorem C5_on_rumble_fields_witness :
    on_rumble [7, 9] 2 = some ⟨7, 9⟩ ∧ on_rumble [7] 1 = none :=
  ⟨C5_on_rumble_fields.1 [7, 9] 2 (by decide),
   C5_on_rumble_fields.2 [7] 1 (by decide)⟩

/-! ## Core-library operations (not under src/; modelled from the spec)

The repository only contains the two example clients; the VIIPER core
library they call (`viiper_add_device_and_connect`, `viiper_device_send`,
`viiper_bus_remove`, `viiper_get_error`) is specified in spec §4.3, §4.4 and
§7 and modelled here from those words. -/

/-- Device-scoped errors, spec §7: `DeviceError{Closed|Transport}`. -/
inductive DeviceErr where
  | Closed
  | Transport
deriving DecidableEq

/-- A device handle; `connected` is the spec's live/closed flag (§3). -/
structure Device where
  connected : Bool
deriving DecidableEq

/-- Modelled from the spec: `viiper_add_device_and_connect` (core library,
not under src/).  Spec §4.4 `create_and_connect`: "composite, atomic from
the caller's perspective — either both steps succeed and a usable handle is
returned, or neither persists (no half-created, unconnected device is left
for the caller to manage)".  The two RPC outcomes (create, connect) are
inputs; the result is the handle, connected, or `none` on failure. -/
def viiper_add_device_and_connect (createOk connectOk : Bool) : Option Device :=
  if createOk && connectOk then some ⟨true⟩ else none

/-- Modelled from the spec: `viiper_device_send` (core library, not under
src/).  Spec §4.4 `send`: "fails with `DeviceError{Closed}` if the device
was closed, `DeviceError{Transport}` on connection failure"; returns no
error on success.  `transportOk` is the connection's state at send time. -/
def viiper_device_send (dev : Device) (transportOk : Bool) : Option DeviceErr :=
  if dev.connected = false then some DeviceErr.Closed
  else if transportOk = false then some DeviceErr.Transport
  else none

/-- Claim C6: every successful `viiper_add_device_and_connect` returns an
already-connected handle, so an immediately following `viiper_device_send`
on it never fails with `DeviceError{Closed}` (whatever the transport does);
and on failure no handle at all — in particular no half-created,
unconnected one — is left for the caller. -/
theorem C6_add_device_and_connect_atomic :
    (∀ (createOk connectOk transportOk : Bool) (dev : Device),
      viiper_add_device_and_connect createOk connectOk = some dev →
      dev.connected = true ∧
      viiper_device_send dev transportOk ≠ some DeviceErr.Closed) ∧
    (∀ createOk connectOk : Bool, (createOk && connectOk) = false →
      viiper_add_device_and_connect createOk connectOk = none) := by
  constructor
  · intro createOk connectOk transportOk dev h
    unfold viiper_add_device_and_connect at h
    split at h
    · cases h
      refine ⟨rfl, ?_⟩
      unfold viiper_device_send
      cases transportOk <;> simp
    · cases h
  · intro createOk connectOk h
    unfold viiper_add_device_and_connect
    rw [h]
    rfl

/-- Closed witness for the hypotheses of `C6_add_device_and_connect_atomic`. -/
theorem C6_add_device_and_connect_atomic_witness :
    (⟨true⟩ : Device).connected = true ∧
    viiper_device_send ⟨true⟩ false ≠ some DeviceErr.Closed :=
  C6_add_device_and_connect_atomic.1 true true false ⟨true⟩ (by decide)

/-- Management-call errors, spec §7:
`RpcError{Protocol|Remote(message)|Timeout|Transport}`. -/
inductive RpcErr where
  | Protocol
  | Remote (msg : String)
  | Timeout
  | Transport
deriving DecidableEq

/-- The client-local state a management call can touch, spec §3: the
last-error message slot (overwritten by each failing call) and the
connection itself. -/
structure Client where
  lastError : String
  connectionAlive : Bool
deriving DecidableEq

/-- Modelled from the spec: `viiper_get_error` (core library, not under
src/).  Spec §6: "a call returning the human-readable text of the most
recent failure on a Client". -/
def viiper_get_error (client : Client) : String := client.lastError

/-- Modelled from the spec: `viiper_bus_remove` / `remove_bus` (core
library, not under src/).  Spec §4.3: "`remove_bus(id) -> () |
RpcError{Remote}`: fails with a remote error if the bus still has devices
attached; this is an expected, recoverable condition, not a defect"; the
`Remote` message is hub-supplied and recorded in the client's last-error
slot (§3, §7); the connection is untouched.  `devicesOnBus` is the number of
devices the hub still has on the bus, `hubMsg` the hub's error text. -/
def viiper_bus_remove (client : Client) (devicesOnBus : Nat) (hubMsg : String) :
    Client × Option RpcErr :=
  if devicesOnBus > 0 then
    ({ client with lastError := hubMsg }, some (RpcErr.Remote hubMsg))
  else
    (client, none)

/-- Claim C7: removing a bus that still has devices attached fails with
`RpcError{Remote}`, the caller can retrieve the hub-supplied error text via
`viiper_get_error`, and the client remains operational (its connection state
is untouched) — an expected, recoverable outcome, not a fatal one. -/
theorem C7_remove_nonempty_bus_recoverable :
    ∀ (client : Client) (devicesOnBus : Nat) (hubMsg : String),
      0 < devicesOnBus →
      (viiper_bus_remove client devicesOnBus hubMsg).2 =
        some (RpcErr.Remote hubMsg) ∧
      viiper_get_error (viiper_bus_remove client devicesOnBus hubMsg).1 = hubMsg ∧
      (viiper_bus_remove client devicesOnBus hubMsg).1.connectionAlive =
        client.connectionAlive := by
  intro client devicesOnBus hubMsg h
  unfold viiper_bus_remove
  rw [if_pos h]
  exact ⟨rfl, rfl, rfl⟩

/-- Closed witness for the hypotheses of `C7_remove_nonempty_bus_recoverable`. -/
theorem C7_remove_nonempty_bus_recoverable_witness :
    (viiper_bus_remove ⟨"", true⟩ 1 "bus not empty").2 =
      some (RpcErr.Remote "bus not empty") ∧
    viiper_get_error (viiper_bus_remove ⟨"", true⟩ 1 "bus not empty").1 =
      "bus not empty" ∧
    (viiper_bus_remove ⟨"", true⟩ 1 "bus not empty").1.connectionAlive =
      (⟨"", true⟩ : Client).connectionAlive :=
  C7_remove_nonempty_bus_recoverable ⟨"", true⟩ 1 "bus not empty" (by decide)

/-! ## Command-line parsing (both examples, identical logic)

```c
    char host[256]; uint16_t port = 3242;
    if (argc <= 1) {
        snprintf(host, sizeof host, "%s", "127.0.0.1");
    } else if (argc == 2) {
        const char* addr = argv[1]; const char* colon = strrchr(addr, ':');
        if (!colon) { fprintf(stderr, "Usage: ...\n"); return 1; }
        size_t len = (size_t)(colon - addr); if (len >= sizeof(host)) len = sizeof(host)-1;
        memcpy(host, addr, len); host[len] = '\0';
        port = (uint16_t)atoi(colon + 1);
    } else { fprintf(stderr, "Usage: ...\n"); return 1; }
```

`args` is `argv[1..]`; an argument is a `List Char`. -/

/-- C `isspace` in the default locale, as consulted by `atoi`. -/
def c_isspace (c : Char) : Bool :=
  c = ' ' || c = '\t' || c = '\n' || c = Char.ofNat 11 || c = Char.ofNat 12 || c = '\r'

/-- The digit-accumulation loop of C `atoi`: consume decimal digits from the
front, stopping at the first non-digit. -/
def digitsAux (acc : Nat) : List Char → Nat
  | [] => acc
  | c :: r => if c.isDigit then digitsAux (acc * 10 + (c.toNat - 48)) r else acc

/-- C `atoi`: skip leading whitespace, an optional sign, then decimal
digits; no digits yields 0.  (Overflow of `int` is undefined in C and not
modelled; the call sites immediately reduce modulo 2^16.) -/
def atoi (s : List Char) : Int :=
  match s.dropWhile c_isspace with
  | '-' :: r => -(Int.ofNat (digitsAux 0 r))
  | '+' :: r => Int.ofNat (digitsAux 0 r)
  | r => Int.ofNat (digitsAux 0 r)

/-- The C conversion `(uint16_t)x` of an `int` value: reduction modulo
2^16 into `0 .. 65535`. -/
def u16_cast (x : Int) : Nat := (x.emod 65536).toNat

/-- `strrchr(addr, ':')` as an index: the position of the last `':'` in the
string, if any. -/
def last_colon_idx : List Char → Option Nat
  | [] => none
  | c :: rest =>
    match last_colon_idx rest with
    | some i => some (i + 1)
    | none => if c = ':' then some 0 else none

/-- Outcome of the argument-handling block of `main`: either connect to
`host:port`, or print the usage message and exit with status 1. -/
inductive ParseResult where
  | connect (host : List Char) (port : Nat)
  | usage
deriving DecidableEq

/-- The argument-handling block of `main` (`args` = `argv[1..]`):
no argument defaults to `127.0.0.1:3242`; one argument is split at its last
colon — host truncated to the 255 bytes that fit the 256-byte buffer, port
converted by `atoi` and cast to `uint16_t` — or rejected if it has no colon;
two or more arguments are rejected. -/
def main_parse (args : List (List Char)) : ParseResult :=
  match args with
  | [] => ParseResult.connect ("127.0.0.1".toList) 3242
  | [addr] =>
    match last_colon_idx addr with
    | none => ParseResult.usage
    | some i =>
      let len := if i ≥ 256 then 255 else i
      ParseResult.connect (addr.take len) (u16_cast (atoi (addr.drop (i + 1))))
  | _ => ParseResult.usage

/-- `i` is the index of the last `':'` in `addr` (what `strrchr` computes). -/
def is_last_colon (addr : List Char) (i : Nat) : Prop :=
  addr.get? i = some ':' ∧ ∀ j, i < j → addr.get? j ≠ some ':'

lemma last_colon_idx_get : ∀ (l : List Char) (i : Nat),
    last_colon_idx l = some i → l.get? i = some ':' := by
  intro l
  induction l with
  | nil => intro i h; cases h
  | cons c rest ih =>
    intro i h
    unfold last_colon_idx at h
    cases hr : last_colon_idx rest with
    | some j =>
      rw [hr] at h
      cases h
      exact ih j hr
    | none =>
      rw [hr] at h
      by_cases hc : c = ':'
      · rw [if_pos hc] at h
        cases h
        simp [hc]
      · rw [if_neg hc] at h
        cases h

lemma last_colon_idx_last : ∀ (l : List Char) (i : Nat),
    last_colon_idx l = some i → ∀ j, i < j → l.get? j ≠ some ':' := by
  intro l
  induction l with
  | nil => intro i h; cases h
  | cons c rest ih =>
    intro i h j hij
    unfold last_colon_idx at h
    cases hr : last_colon_idx rest with
    | some k =>
      rw [hr] at h
      cases h
      match j, hij with
      | j' + 1, hij =>
        show rest.get? j' ≠ some ':'
        exact ih k hr j' (by omega)
    | none =>
      rw [hr] at h
      by_cases hc : c = ':'
      · rw [if_pos hc] at h
        cases h
        match j, hij with
        | j' + 1, _ =>
          show rest.get? j' ≠ some ':'
          intro hget
          have : ∀ m r, last_colon_idx r = none → r.get? m ≠ some (':' : Char) := by
            intro m
            induction m with
            | zero =>
              intro r hnone
              cases r with
              | nil => simp
              | cons a r' =>
                unfold last_colon_idx at hnone
                cases ha : last_colon_idx r' with
                | some _ => rw [ha] at hnone; cases hnone
                | none =>
                  rw [ha] at hnone
                  by_cases hac : a = ':'
                  · rw [if_pos hac] at hnone; cases hnone
                  · simpa using hac
            | succ m' ihm =>
              intro r hnone
              cases r with
              | nil => simp
              | cons a r' =>
                unfold last_colon_idx at hnone
                cases ha : last_colon_idx r' with
                | some _ => rw [ha] at hnone; cases hnone
                | none =>
                  show r'.get? m' ≠ some ':'
                  exact ihm r' ha
          exact this j' rest hr hget
      · rw [if_neg hc] at h
        cases h

lemma last_colon_idx_none : ∀ (l : List Char),
    last_colon_idx l = none → ∀ j, l.get? j ≠ some ':' := by
  intro l
  induction l with
  | nil => intro _ j; simp
  | cons c rest ih =>
    intro h j
    unfold last_colon_idx at h
    cases hr : last_colon_idx rest with
    | some _ => rw [hr] at h; cases h
    | none =>
      rw [hr] at h
      by_cases hc : c = ':'
      · rw [if_pos hc] at h; cases h
      · cases j with
        | zero => simpa using hc
        | succ j' =>
          show rest.get? j' ≠ some ':'
          exact ih hr j'

lemma is_last_colon_unique (addr : List Char) (i : Nat)
    (h : is_last_colon addr i) : last_colon_idx addr = some i := by
  cases hl : last_colon_idx addr with
  | none => exact absurd h.1 (last_colon_idx_none addr hl i)
  | some k =>
    have hk : addr.get? k = some ':' := last_colon_idx_get addr k hl
    rcases Nat.lt_trichotomy i k with hik | rfl | hik
    · exact absurd hk (h.2 k hik)
    · rfl
    · exact absurd h.1 (last_colon_idx_last addr k hl i hik)

lemma main_parse_single (addr : List Char) :
    main_parse [addr] =
      match last_colon_idx addr with
      | none => ParseResult.usage
      | some i =>
        ParseResult.connect (addr.take (if i ≥ 256 then 255 else i))
          (u16_cast (atoi (addr.drop (i + 1)))) := rfl

lemma main_parse_colon (addr : List Char) (i : Nat) (h : is_last_colon addr i) :
    main_parse [addr] = ParseResult.connect (addr.take (min i 255))
      (u16_cast (atoi (addr.drop (i + 1)))) := by
  have h1 : main_parse [addr] =
      ParseResult.connect (addr.take (if i ≥ 256 then 255 else i))
        (u16_cast (atoi (addr.drop (i + 1)))) := by
    rw [main_parse_single, is_last_colon_unique addr i h]
  rw [h1]
  have hlen : (if i ≥ 256 then 255 else i) = min i 255 := by
    split <;> omega
  rw [hlen]

lemma mem_of_mem_dropWhile_spaces (s : List Char) (c : Char)
    (hc : c ∈ s.dropWhile c_isspace) : c ∈ s := by
  induction s with
  | nil => simp at hc
  | cons a r ih =>
    rw [List.dropWhile_cons] at hc
    split at hc
    · exact List.mem_cons_of_mem _ (ih hc)
    · exact hc

lemma digitsAux_zero (r : List Char) (h : ∀ c ∈ r, c.isDigit = false) :
    digitsAux 0 r = 0 := by
  cases r with
  | nil => rfl
  | cons c r' =>
    unfold digitsAux
    rw [h c (List.mem_cons_self c r')]
    rfl

lemma atoi_no_digits (s : List Char) (h : ∀ c ∈ s, c.isDigit = false) :
    atoi s = 0 := by
  have hsub : ∀ c ∈ s.dropWhile c_isspace, c.isDigit = false := fun c hc =>
    h c (mem_of_mem_dropWhile_spaces s c hc)
  unfold atoi
  split
  · rename_i r heq
    have : digitsAux 0 r = 0 := by
      apply digitsAux_zero
      intro c hc
      exact hsub c (by rw [heq]; exact List.mem_cons_of_mem _ hc)
    rw [this]
    rfl
  · rename_i r heq
    have : digitsAux 0 r = 0 := by
      apply digitsAux_zero
      intro c hc
      exact hsub c (by rw [heq]; exact List.mem_cons_of_mem _ hc)
    rw [this]
    rfl
  · rename_i r hne1 hne2
    exact congrArg Int.ofNat (digitsAux_zero _ hsub)

/-- Claim C3 (amended): with no argument the client connects to
`127.0.0.1:3242`; with one argument containing a colon, the host is the
substring before the last colon truncated to its first 255 characters and
the port is parsed (by `atoi`, cast to `uint16_t`) from the substring after
it; with one colon-free argument, or more than one argument, the program
prints the usage message and exits with status 1 without connecting. -/
theorem C3_host_port_parsing :
    main_parse [] = ParseResult.connect ("127.0.0.1".toList) 3242 ∧
    (∀ (addr : List Char) (i : Nat), is_last_colon addr i →
      main_parse [addr] = ParseResult.connect (addr.take (min i 255))
        (u16_cast (atoi (addr.drop (i + 1))))) ∧
    (∀ addr : List Char, (∀ j, addr.get? j ≠ some ':') →
      main_parse [addr] = ParseResult.usage) ∧
    (∀ (a b : List Char) (rest : List (List Char)),
      main_parse (a :: b :: rest) = ParseResult.usage) := by
  refine ⟨rfl, main_parse_colon, ?_, fun a b rest => rfl⟩
  intro addr hnc
  rw [main_parse_single]
  cases hl : last_colon_idx addr with
  | none => rfl
  | some k => exact absurd (last_colon_idx_get addr k hl) (hnc k)

/-- Closed witness for the hypotheses of `C3_host_port_parsing`. -/
theorem C3_host_port_parsing_witness :
    main_parse [['h', ':', '8', '0']] =
      ParseResult.connect (['h', ':', '8', '0'].take (min 1 255))
        (u16_cast (atoi (['h', ':', '8', '0'].drop 2))) ∧
    main_parse [['h', 'o', 's', 't']] = ParseResult.usage :=
  ⟨C3_host_port_parsing.2.1 ['h', ':', '8', '0'] 1
    ⟨by decide, by
      intro j hj
      match j, hj with
      | 2, _ => decide
      | 3, _ => decide
      | j + 4, _ => simp [List.get?]⟩,
   C3_host_port_parsing.2.2.1 ['h', 'o', 's', 't'] (by
      intro j
      match j with
      | 0 => decide
      | 1 => decide
      | 2 => decide
      | 3 => decide
      | j + 4 => simp [List.get?])⟩

set_option maxRecDepth 100000 in
/-- Claim C3 counterexample: for the single argument of 256 `a`s followed by
`:80`, the substring before the last colon (index 256) is the 256 `a`s, but
the program connects with a host of only the first 255 of them — the host is
not the substring before the last colon. -/
theorem C3_truncation_counterexample :
    last_colon_idx (List.replicate 256 'a' ++ [':', '8', '0']) = some 256 ∧
    main_parse [List.replicate 256 'a' ++ [':', '8', '0']] ≠
      ParseResult.connect (List.replicate 256 'a') 80 ∧
    main_parse [List.replicate 256 'a' ++ [':', '8', '0']] =
      ParseResult.connect (List.replicate 255 'a') 80 := by decide

/-- Claim C10: a one-argument invocation whose host part (before the last
colon) is 255 characters or longer still connects, with the host silently
truncated to the first 255 characters; every host that reaches the connect
step fits (with its terminating NUL) in the 256-byte buffer, i.e. has at
most 255 characters — no out-of-bounds write; and the port substring is
converted with `atoi`, so a digit-free port part yields port 0 rather than
an error. -/
theorem C10_truncation_and_atoi :
    (∀ (addr : List Char) (i : Nat), is_last_colon addr i → 255 ≤ i →
      ∃ p, main_parse [addr] = ParseResult.connect (addr.take 255) p) ∧
    (∀ (addr host : List Char) (port : Nat),
      main_parse [addr] = ParseResult.connect host port → host.length ≤ 255) ∧
    (∀ (addr : List Char) (i : Nat), is_last_colon addr i →
      (∀ c ∈ addr.drop (i + 1), c.isDigit = false) →
      ∃ host, main_parse [addr] = ParseResult.connect host 0) := by
  refine ⟨?_, ?_, ?_⟩
  · intro addr i h hi
    refine ⟨u16_cast (atoi (addr.drop (i + 1))), ?_⟩
    rw [main_parse_colon addr i h, Nat.min_eq_right hi]
  · intro addr host port h
    cases hl : last_colon_idx addr with
    | none =>
      rw [main_parse_single, hl] at h
      exact ParseResult.noConfusion h
    | some k =>
      have hk : is_last_colon addr k :=
        ⟨last_colon_idx_get addr k hl, last_colon_idx_last addr k hl⟩
      rw [main_parse_colon addr k hk] at h
      injection h with h1 h2
      subst h1
      simp only [List.length_take]
      omega
  · intro addr i h hnd
    refine ⟨addr.take (min i 255), ?_⟩
    rw [main_parse_colon addr i h, atoi_no_digits _ hnd]
    rfl

set_option maxRecDepth 100000 in
/-- Closed witness for the hypotheses of `C10_truncation_and_atoi`. -/
theorem C10_truncation_and_atoi_witness :
    (∃ p, main_parse [List.replicate 255 'b' ++ [':', '8', '0']] =
      ParseResult.connect ((List.replicate 255 'b' ++ [':', '8', '0']).take 255) p) ∧
    (∃ host, main_parse [['h', ':', 'x']] = ParseResult.connect host 0) := by
  constructor
  · refine C10_truncation_and_atoi.1 (List.replicate 255 'b' ++ [':', '8', '0']) 255
      ⟨?_, ?_⟩ (le_refl 255)
    · decide
    · intro j hj
      match j, hj with
      | 256, _ => decide
      | 257, _ => decide
      | j + 258, _ =>
        have hlen : (List.replicate 255 'b' ++ [':', '8', '0']).length = 258 := by
          simp
        rw [List.get?_eq_getElem?, List.getElem?_eq_none (by omega)]
        simp
  · refine C10_truncation_and_atoi.2.2 ['h', ':', 'x'] 1 ⟨?_, ?_⟩ ?_
    · decide
    · intro j hj
      match j, hj with
      | 2, _ => decide
      | j + 3, _ => simp [List.get?]
    · intro c hc
      have hdrop : (['h', ':', 'x'].drop 2) = ['x'] := rfl
      rw [hdrop] at hc
      have hce := List.mem_singleton.mp hc
      subst hce
      decide

end VIIPER
